import Mathlib

/-!
Verification of `QMigrate/util.py` (QuakeMigrate utility module).

The numerical helpers are shallowly embedded over `ℚ`: Python floats are
modelled as exact rationals, `int()` as truncation toward zero, and
`round()` as round-half-to-even. The Gaussian kernels are embedded
pointwise: the rational exponent is computed exactly and fed to
`Real.exp`. Exception classes are embedded by their message strings.
-/

namespace QMUtil

/-- Model of Python `int(...)` on a real number: truncation toward zero. -/
def pytrunc (q : ℚ) : ℤ :=
  if 0 ≤ q then ⌊q⌋ else ⌈q⌉

/-- Model of Python `round(...)` (no digits argument): round to the nearest
integer, ties to even. -/
def pyround (q : ℚ) : ℤ :=
  if q - ⌊q⌋ < 1/2 then ⌊q⌋
  else if 1/2 < q - ⌊q⌋ then ⌊q⌋ + 1
  else if ⌊q⌋ % 2 = 0 then ⌊q⌋ else ⌊q⌋ + 1

/-- `time2sample(time, sampling_rate)` from `QMigrate/util.py`:
`int(round(time * int(sampling_rate)))`. (`round` already yields an
integer, so the outer `int` is the identity.) -/
def time2sample (time sampling_rate : ℚ) : ℤ :=
  pyround (time * (pytrunc sampling_rate : ℚ))

/-- `trim2sample(time, sampling_rate)` from `QMigrate/util.py`:
`int(np.ceil(time * sampling_rate) / sampling_rate * 1000) / 1000`. -/
def trim2sample (time sampling_rate : ℚ) : ℚ :=
  (pytrunc ((⌈time * sampling_rate⌉ : ℚ) / sampling_rate * 1000) : ℚ) / 1000

/-- Modelled from the spec: `trim_to_sample_boundary` as the spec words it,
"compute `ceil(time * sampling_rate)`, divide by sampling rate, then round
to 3 decimal places (millisecond precision)" — i.e. rounding, not the
truncation the code performs. Used to compare the spec wording against
`trim2sample`. -/
def trim2sampleRounded (time sampling_rate : ℚ) : ℚ :=
  (pyround ((⌈time * sampling_rate⌉ : ℚ) / sampling_rate * 1000) : ℚ) / 1000

/-- The coordinate vector built by `gaussian_3d`:
`np.linspace(-(n-1)/2, (n-1)/2, n)` evaluated at index `i`. In exact
arithmetic the `i`-th point is `-(n-1)/2 + i * ((n-1)/(n-1)) = i - (n-1)/2`. -/
def coord (n i : ℕ) : ℚ :=
  (i : ℚ) - ((n : ℚ) - 1) / 2

/-- The integer-floor of the half-extent `(n-1)/2`: the "center" index the
spec designates for each axis. -/
def center (n : ℕ) : ℕ :=
  (n - 1) / 2

/-- Sigma argument of `gaussian_3d`: either a scalar (`np.isscalar(sgm)`
branch) or a 3-element sequence. -/
inductive SigmaArg where
  | scalar (s : ℚ)
  | triple (sx sy sz : ℚ)

/-- The `np.repeat(sgm, 3)` broadcast performed by `gaussian_3d` for scalar
sigma; a 3-element sigma is unpacked as given. -/
def broadcastSigma : SigmaArg → ℚ × ℚ × ℚ
  | SigmaArg.scalar s => (s, s, s)
  | SigmaArg.triple sx sy sz => (sx, sy, sz)

/-- Exponent of `gaussian_1d`: `-1. * ((x - b) ** 2) / (2 * (c ** 2))`. -/
def g1exp (x b c : ℚ) : ℚ :=
  -1 * ((x - b) ^ 2) / (2 * (c ^ 2))

/-- `gaussian_1d(x, a, b, c)` from `QMigrate/util.py`, pointwise in `x`:
`a * np.exp(-1. * ((x - b) ** 2) / (2 * (c ** 2)))`. -/
noncomputable def gaussian_1d (x a b c : ℚ) : ℝ :=
  (a : ℝ) * Real.exp ((g1exp x b c : ℚ) : ℝ)

/-- Exponent of `gaussian_3d` at grid point `(i, j, k)`:
`- (ix*ix)/(2*sx*sx) - (iy*iy)/(2*sy*sy) - (iz*iz)/(2*sz*sz)` with
`ix = coord nx i`, `iy = coord ny j`, `iz = coord nz k` (the
`np.meshgrid(x, y, z, indexing="ij")` coordinates). -/
def g3exp (nx ny nz : ℕ) (sx sy sz : ℚ) (i j k : ℕ) : ℚ :=
  -(coord nx i * coord nx i) / (2 * sx * sx)
    - coord ny j * coord ny j / (2 * sy * sy)
    - coord nz k * coord nz k / (2 * sz * sz)

/-- `gaussian_3d(nx, ny, nz, sgm)` from `QMigrate/util.py`, pointwise at
grid index `(i, j, k)`. -/
noncomputable def gaussian_3d (nx ny nz : ℕ) (sgm : SigmaArg) (i j k : ℕ) : ℝ :=
  Real.exp ((g3exp nx ny nz (broadcastSigma sgm).1 (broadcastSigma sgm).2.1
    (broadcastSigma sgm).2.2 i j k : ℚ) : ℝ)

/-- Primary message of `StationFileHeaderException`. -/
def stationFileHeaderMsg : String :=
  "StationFileHeaderException: incorrect station file header - use:\nLatitude, Longitude, Elevation, Name"

/-- Primary message of `VelocityModelFileHeaderException`. -/
def velocityModelFileHeaderMsg : String :=
  "VelocityModelFileHeaderException: incorrect velocity model file header - use:\nDepth, Vp, Vs"

/-- Primary message of `ArchiveEmptyException`. -/
def archiveEmptyMsg : String :=
  "ArchiveEmptyException: No data was available for this timestep."

/-- Secondary log message (`self.msg`) of `ArchiveEmptyException`. -/
def archiveEmptySecondary : String :=
  "\t\tNo files found in archive for this time period."

/-- Primary message of `NoScanMseedDataException`. -/
def noScanMseedDataMsg : String :=
  "NoScanMseedDataException: No .scanmseed data found."

/-- Primary message of `NoStationAvailabilityDataException`. -/
def noStationAvailabilityDataMsg : String :=
  "NoStationAvailabilityDataException: No .StationAvailability files found."

/-- Primary message of `DataGapException`. The source concatenates
`"... in the archive for the"` directly with `"selected stations."`,
producing the run-on `"theselected"`. -/
def dataGapMsg : String :=
  "DataGapException: All available data had gaps for this timestep.\n    OR: no data present in the archive for theselected stations."

/-- Secondary log message (`self.msg`) of `DataGapException`. -/
def dataGapSecondary : String :=
  "\t\tAll available data for this time period contains gaps\n\t\tor data not available at start/end of time period"

/-- Modelled from the spec: the primary message the spec2s message-contract
table gives for the "all data has gaps" condition. -/
def dataGapClaimedPrimary : String :=
  "All available data had gaps for this timestep.\n OR: no data present in the archive for the selected stations."

/-- Primary message of `ChannelNameException`, parameterized by the trace. -/
def channelNameMsg (trace : String) : String :=
  "ChannelNameException: Channel name header does not conform to\nthe IRIS SEED standard - 3 characters; ending in \x27Z\x27 for\nvertical and ending either \x27E\x27 & \x27N\x27 or \x271\x27 & \x272\x27 for\nhorizontal components.\n    Working on trace: " ++ trace

/-- Primary message of `BadUpfactorException`, parameterized by the trace. -/
def badUpfactorMsg (trace : String) : String :=
  "BadUpfactorException: chosen upfactor cannot be decimated to\ntarget sampling rate.\n    Working on trace: " ++ trace

/-- Primary message of `OnsetTypeError`. -/
def onsetTypeErrorMsg : String :=
  "OnsetTypeError: The Onset object you have created does not inherit from the required base class - see manual."

/-- Primary message of `PickerTypeError`. The source concatenates
`"... you have created does"` directly with `"not inherit ..."`,
producing the run-on `"doesnot"`. -/
def pickerTypeErrorMsg : String :=
  "PickerTypeError: The PhasePicker object you have created doesnot inherit from the required base class - see manual."

/-- Primary message of `TimeSpanException`. -/
def timeSpanMsg : String :=
  "TimeSpanException: The start time specified is after the end time."

/-- Primary message of `InvalidThresholdMethodException`. -/
def invalidThresholdMethodMsg : String :=
  "InvalidThresholdMethodException: Only \x27static\x27 or \x27dynamic\x27 thresholds are supported."

theorem pytrunc_of_nonneg {q : ℚ} (h : 0 ≤ q) : pytrunc q = ⌊q⌋ :=
  if_pos h

theorem pytrunc_intCast (n : ℤ) : pytrunc (n : ℚ) = n := by
  unfold pytrunc
  split <;> simp

theorem pytrunc_eq_self {r : ℚ} (h : r.den = 1) : (pytrunc r : ℚ) = r := by
  obtain ⟨n, rfl⟩ : ∃ n : ℤ, (n : ℚ) = r := ⟨r.num, (Rat.den_eq_one_iff r).mp h⟩
  rw [pytrunc_intCast]

/-- The rounded value is always within half a unit of the input. -/
theorem pyround_abs_sub_le (q : ℚ) : |(pyround q : ℚ) - q| ≤ 1/2 := by
  have h1 : (⌊q⌋ : ℚ) ≤ q := Int.floor_le q
  have h2 : q < ⌊q⌋ + 1 := Int.lt_floor_add_one q
  unfold pyround
  split_ifs with ha hb hc <;> rw [abs_le] <;> constructor <;> push_cast <;> linarith

/-- Evaluation helper: `trim2sample` at concrete nonnegative inputs. -/
theorem trim2sample_eval {t r : ℚ} {c m : ℤ} (hc : ⌈t * r⌉ = c)
    (h0 : 0 ≤ (c : ℚ) / r * 1000) (hm : ⌊(c : ℚ) / r * 1000⌋ = m) :
    trim2sample t r = (m : ℚ) / 1000 := by
  unfold trim2sample
  rw [hc, pytrunc_of_nonneg h0, hm]

/-- Evaluation helper: `pyround` below the half-way point. -/
theorem pyround_eval_lt {q : ℚ} {f : ℤ} (hf : ⌊q⌋ = f) (h : q - f < 1/2) :
    pyround q = f := by
  unfold pyround
  rw [hf, if_pos h]

/-- Evaluation helper: `pyround` above the half-way point. -/
theorem pyround_eval_gt {q : ℚ} {f : ℤ} (hf : ⌊q⌋ = f) (h : 1/2 < q - f) :
    pyround q = f + 1 := by
  unfold pyround
  rw [hf, if_neg (by linarith), if_pos h]

theorem pyround_intCast (n : ℤ) : pyround (n : ℚ) = n := by
  unfold pyround
  rw [Int.floor_intCast, if_pos (by norm_num)]

/-- Evaluation helper: `trim2sampleRounded` at concrete inputs. -/
theorem trim2sampleRounded_eval {t r : ℚ} {c m : ℤ} (hc : ⌈t * r⌉ = c)
    (hm : pyround ((c : ℚ) / r * 1000) = m) :
    trim2sampleRounded t r = (m : ℚ) / 1000 := by
  unfold trim2sampleRounded
  rw [hc, hm]

/-- C1 counterexample: over exact arithmetic, at sampling rate 3 the value
`trim2sample(1/3, 3) = 0.333` is strictly smaller than the requested
padding `1/3`, and `trim2sample(2/5, 3) * 3 = 999/500` is not an integer
number of samples. -/
theorem trim2sample_boundary_fails :
    trim2sample (1/3) 3 < 1/3 ∧ ¬ ∃ n : ℤ, trim2sample (2/5) 3 * 3 = (n : ℚ) := by
  have h1 : trim2sample (1/3) 3 = ((333 : ℤ) : ℚ) / 1000 := by
    apply trim2sample_eval (c := 1)
    · rw [Int.ceil_eq_iff] ; norm_num
    · norm_num
    · rw [Int.floor_eq_iff] ; norm_num
  have h2 : trim2sample (2/5) 3 = ((666 : ℤ) : ℚ) / 1000 := by
    apply trim2sample_eval (c := 2)
    · rw [Int.ceil_eq_iff] ; norm_num
    · norm_num
    · rw [Int.floor_eq_iff] ; norm_num
  refine ⟨by rw [h1] ; norm_num, ?_⟩
  rintro ⟨n, hn⟩
  rw [h2] at hn
  have : (500 : ℚ) * n = 999 := by push_cast at hn ⊢ ; linarith
  have : (500 : ℤ) * n = 999 := by exact_mod_cast this
  omega

/-- C1 (amended): for `t ≥ 0` and a sampling rate `r > 0` such that `1000`
is an integer multiple of `r` (which includes every rate dividing 1000,
e.g. 100, 250, 500), `trim2sample(t, r)` is at least `t` and corresponds
to an exact integer number of samples at rate `r`. -/
theorem trim2sample_boundary (t r : ℚ) (k : ℤ) (ht : 0 ≤ t) (hr : 0 < r)
    (hk : (k : ℚ) * r = 1000) :
    t ≤ trim2sample t r ∧ ∃ n : ℤ, trim2sample t r * r = (n : ℚ) := by
  have hrne : r ≠ 0 := ne_of_gt hr
  have hkq : (1000 : ℚ) / r = (k : ℚ) := by
    rw [div_eq_iff hrne] ; linarith
  have key : (⌈t * r⌉ : ℚ) / r * 1000 = ((⌈t * r⌉ * k : ℤ) : ℚ) := by
    push_cast
    rw [div_mul_eq_mul_div, mul_div_assoc, hkq]
  have hkne : (k : ℚ) ≠ 0 := by
    intro h0
    rw [h0, zero_mul] at hk
    norm_num at hk
  have hT : trim2sample t r = (⌈t * r⌉ : ℚ) / r := by
    unfold trim2sample
    rw [key, pytrunc_intCast]
    push_cast
    rw [div_eq_div_iff (by norm_num) hrne]
    linear_combination ((⌈t * r⌉ : ℚ)) * hk
  constructor
  · rw [hT, le_div_iff hr]
    exact Int.le_ceil (t * r)
  · refine ⟨⌈t * r⌉, ?_⟩
    rw [hT]
    field_simp

/-- C1 witness. -/
theorem trim2sample_boundary_witness :
    (0 : ℚ) ≤ 2 ∧ (0 : ℚ) < 100 ∧ ((10 : ℤ) : ℚ) * 100 = 1000 ∧
      ((2 : ℚ) ≤ trim2sample 2 100 ∧ ∃ n : ℤ, trim2sample 2 100 * 100 = (n : ℚ)) :=
  ⟨by norm_num, by norm_num, by push_cast ; norm_num,
    trim2sample_boundary 2 100 10 (by norm_num) (by norm_num) (by push_cast ; norm_num)⟩

/-- C2 counterexample: the code truncates the quotient at the third decimal
place rather than rounding it. At `t = 2/5`, `r = 3` the quotient is
`2/3 = 0.666...`; rounding to 3 decimal places would give `0.667`, but
`trim2sample` returns `0.666`. -/
theorem trim2sample_ne_rounded :
    trim2sample (2/5) 3 ≠ trim2sampleRounded (2/5) 3 := by
  have h2 : trim2sample (2/5) 3 = ((666 : ℤ) : ℚ) / 1000 := by
    apply trim2sample_eval (c := 2)
    · rw [Int.ceil_eq_iff] ; norm_num
    · norm_num
    · rw [Int.floor_eq_iff] ; norm_num
  have h3 : trim2sampleRounded (2/5) 3 = ((667 : ℤ) : ℚ) / 1000 := by
    apply trim2sampleRounded_eval (c := 2)
    · rw [Int.ceil_eq_iff] ; norm_num
    · rw [show (667 : ℤ) = 666 + 1 by norm_num]
      apply pyround_eval_gt
      · rw [Int.floor_eq_iff] ; norm_num
      · norm_num
  rw [h2, h3]
  norm_num

/-- C2 (amended): `trim2sample(time, sampling_rate)` computes
`ceil(time * sampling_rate)`, divides by the sampling rate, and truncates
(floor, for nonnegative input) the quotient at 3 decimal places; in
particular `trim2sample(1.003, 100) = 1.01`. -/
theorem trim2sample_truncates (t r : ℚ) (ht : 0 ≤ t) (hr : 0 < r) :
    trim2sample t r = ((⌊(⌈t * r⌉ : ℚ) / r * 1000⌋ : ℤ) : ℚ) / 1000 ∧
      trim2sample (1003/1000) 100 = 101/100 := by
  constructor
  · have h0 : (0 : ℚ) ≤ (⌈t * r⌉ : ℚ) / r * 1000 := by
      have hc : (0 : ℚ) ≤ (⌈t * r⌉ : ℚ) := by
        exact_mod_cast Int.ceil_nonneg (mul_nonneg ht hr.le)
      have := div_nonneg hc hr.le
      nlinarith
    unfold trim2sample
    rw [pytrunc_of_nonneg h0]
  · have : trim2sample (1003/1000) 100 = ((1010 : ℤ) : ℚ) / 1000 := by
      apply trim2sample_eval (c := 101)
      · rw [Int.ceil_eq_iff] ; norm_num
      · norm_num
      · rw [Int.floor_eq_iff] ; norm_num
    rw [this] ; norm_num

/-- C2 witness. -/
theorem trim2sample_truncates_witness :
    (0 : ℚ) ≤ 2/5 ∧ (0 : ℚ) < 3 ∧
      (trim2sample (2/5) 3 = ((⌊(⌈(2/5 : ℚ) * 3⌉ : ℚ) / 3 * 1000⌋ : ℤ) : ℚ) / 1000 ∧
        trim2sample (1003/1000) 100 = 101/100) :=
  ⟨by norm_num, by norm_num, trim2sample_truncates (2/5) 3 (by norm_num) (by norm_num)⟩

/-- C3 counterexample: for the fractional sampling rate `r = 5/2` the
half-sample-period bound fails: `time2sample(2, 5/2) = round(2 * int(5/2)) = 4`,
and `|4 / (5/2) - 2| = 2/5 > 1/5 = 0.5 / (5/2)`. -/
theorem time2sample_bound_fails_fractional :
    time2sample 2 (5/2) = 4 ∧
      ¬ |((time2sample 2 (5/2) : ℤ) : ℚ) / (5/2) - 2| ≤ 1 / (2 * (5/2)) := by
  have h4 : time2sample 2 (5/2) = 4 := by
    unfold time2sample
    rw [show pytrunc (5/2 : ℚ) = 2 from by
      rw [pytrunc_of_nonneg (by norm_num), Int.floor_eq_iff] ; norm_num]
    rw [show (2 : ℚ) * ((2 : ℤ) : ℚ) = ((4 : ℤ) : ℚ) from by push_cast ; norm_num]
    rw [pyround_intCast]
  refine ⟨h4, ?_⟩
  rw [h4, not_le]
  norm_num [lt_abs]

/-- C3 (amended): `time2sample` multiplies the time by the truncated
sampling rate and rounds half-to-even; for `t ≥ 0` and an integer
sampling rate `r > 0` (`r.den = 1`) the result is within half a sample
period of `t`; `time2sample(1.5, 100) = 150`; negative times are allowed
and give negative sample counts, e.g. `time2sample(-1.5, 100) = -150`. -/
theorem time2sample_half_bound (t r : ℚ) (ht : 0 ≤ t) (hr : 0 < r)
    (hden : r.den = 1) :
    |((time2sample t r : ℤ) : ℚ) / r - t| ≤ 1 / (2 * r) ∧
      time2sample (3/2) 100 = 150 ∧ time2sample (-(3/2)) 100 = -150 := by
  refine ⟨?_, ?_, ?_⟩
  · unfold time2sample
    rw [pytrunc_eq_self hden]
    have h := pyround_abs_sub_le (t * r)
    have hrne : r ≠ 0 := ne_of_gt hr
    have e : ((pyround (t * r) : ℤ) : ℚ) / r - t =
        (((pyround (t * r) : ℤ) : ℚ) - t * r) / r := by
      field_simp
      ring
    rw [e, abs_div, abs_of_pos hr, ← div_div]
    exact (div_le_div_right hr).mpr h
  · unfold time2sample
    rw [show (100 : ℚ) = ((100 : ℤ) : ℚ) by norm_num, pytrunc_intCast]
    rw [show (3/2 : ℚ) * ((100 : ℤ) : ℚ) = ((150 : ℤ) : ℚ) by push_cast ; norm_num]
    rw [pyround_intCast]
  · unfold time2sample
    rw [show (100 : ℚ) = ((100 : ℤ) : ℚ) by norm_num, pytrunc_intCast]
    rw [show (-(3/2) : ℚ) * ((100 : ℤ) : ℚ) = ((-150 : ℤ) : ℚ) by push_cast ; norm_num]
    rw [pyround_intCast]

/-- C3 witness. -/
theorem time2sample_half_bound_witness :
    (0 : ℚ) ≤ 3/2 ∧ (0 : ℚ) < 100 ∧ (100 : ℚ).den = 1 ∧
      (|((time2sample (3/2) 100 : ℤ) : ℚ) / 100 - 3/2| ≤ 1 / (2 * 100) ∧
        time2sample (3/2) 100 = 150 ∧ time2sample (-(3/2)) 100 = -150) :=
  ⟨by norm_num, by norm_num, by decide,
    time2sample_half_bound (3/2) 100 (by norm_num) (by norm_num) (by decide)⟩

/-- C7: `trim2sample` is idempotent for `t ≥ 0` and any sampling rate
`r > 0`: applying it twice yields the same result as applying it once. -/
theorem trim2sample_idempotent (t r : ℚ) (ht : 0 ≤ t) (hr : 0 < r) :
    trim2sample (trim2sample t r) r = trim2sample t r := by
  have hrne : r ≠ 0 := ne_of_gt hr
  set c : ℤ := ⌈t * r⌉ with hcdef
  have hc0 : (0 : ℚ) ≤ (c : ℚ) := by
    exact_mod_cast Int.ceil_nonneg (mul_nonneg ht hr.le)
  have hA0 : (0 : ℚ) ≤ (c : ℚ) / r * 1000 :=
    mul_nonneg (div_nonneg hc0 hr.le) (by norm_num)
  set m : ℤ := ⌊(c : ℚ) / r * 1000⌋ with hmdef
  have hm0 : (0 : ℚ) ≤ (m : ℚ) := by
    exact_mod_cast Int.floor_nonneg.mpr hA0
  have hT : trim2sample t r = (m : ℚ) / 1000 := by
    unfold trim2sample
    rw [← hcdef, pytrunc_of_nonneg hA0, ← hmdef]
  have hf1 : (m : ℚ) ≤ (c : ℚ) / r * 1000 := Int.floor_le _
  have hf2 : (c : ℚ) / r * 1000 < m + 1 := Int.lt_floor_add_one _
  have e1 : (c : ℚ) / r * 1000 * r = 1000 * c := by
    field_simp
    ring
  have hub : (m : ℚ) * r ≤ 1000 * c := by
    have := mul_le_mul_of_nonneg_right hf1 hr.le
    rwa [e1] at this
  have hlb : (1000 : ℚ) * c < ((m : ℚ) + 1) * r := by
    have := mul_lt_mul_of_pos_right hf2 hr
    rwa [e1] at this
  set c2 : ℤ := ⌈(m : ℚ) / 1000 * r⌉ with hc2def
  have hc2nonneg : (0 : ℚ) ≤ (c2 : ℚ) := by
    exact_mod_cast Int.ceil_nonneg (mul_nonneg (by linarith) hr.le)
  have hcu : (c2 : ℚ) ≤ (c : ℚ) := by
    have h1 : c2 ≤ c := by
      rw [hc2def]
      refine Int.ceil_le.mpr ?_
      rw [div_mul_eq_mul_div, div_le_iff (by norm_num : (0:ℚ) < 1000)]
      linarith
    exact_mod_cast h1
  have hclb : (m : ℚ) ≤ (c2 : ℚ) / r * 1000 := by
    have hle : (m : ℚ) / 1000 * r ≤ (c2 : ℚ) := Int.le_ceil _
    rw [div_mul_eq_mul_div, le_div_iff hr]
    rw [div_mul_eq_mul_div, div_le_iff (by norm_num : (0:ℚ) < 1000)] at hle
    linarith
  have hcub : (c2 : ℚ) / r * 1000 < (m : ℚ) + 1 := by
    rw [div_mul_eq_mul_div, div_lt_iff hr]
    nlinarith
  have hA2nonneg : (0 : ℚ) ≤ (c2 : ℚ) / r * 1000 :=
    mul_nonneg (div_nonneg hc2nonneg hr.le) (by norm_num)
  have hfloor2 : ⌊(c2 : ℚ) / r * 1000⌋ = m := by
    rw [Int.floor_eq_iff]
    constructor
    · exact_mod_cast hclb
    · exact_mod_cast hcub
  rw [hT]
  unfold trim2sample
  rw [← hc2def, pytrunc_of_nonneg hA2nonneg, hfloor2]

/-- C7 witness. -/
theorem trim2sample_idempotent_witness :
    (0 : ℚ) ≤ 2/5 ∧ (0 : ℚ) < 3 ∧
      trim2sample (trim2sample (2/5) 3) 3 = trim2sample (2/5) 3 :=
  ⟨by norm_num, by norm_num, trim2sample_idempotent (2/5) 3 (by norm_num) (by norm_num)⟩

/-- C10: `time2sample` truncates the sampling rate to an integer before
multiplying (its value only depends on `pytrunc r`), while `trim2sample`
uses the rate exactly as given; for a fractional rate (one that is no
integer) the effective rates differ, and the output of `trim2sample` need not
be a whole number of samples at the truncated rate: at `t = 0.2`,
`r = 2.5`, `trim2sample` returns `0.4`, which differs from its value at
the truncated rate `2`, and `0.4 * 2 = 0.8` is not an integer. -/
theorem time2sample_truncates_rate_trim2sample_not (r : ℚ)
    (hfrac : ¬ ∃ n : ℤ, (n : ℚ) = r) :
    (∀ t : ℚ, time2sample t r = time2sample t (pytrunc r : ℚ))
    ∧ (pytrunc r : ℚ) ≠ r
    ∧ trim2sample (1/5) (5/2) ≠ trim2sample (1/5) (pytrunc (5/2) : ℚ)
    ∧ ¬ ∃ n : ℤ, trim2sample (1/5) (5/2) * (pytrunc (5/2) : ℚ) = (n : ℚ) := by
  have htr : pytrunc (5/2 : ℚ) = 2 := by
    rw [pytrunc_of_nonneg (by norm_num), Int.floor_eq_iff] ; norm_num
  have hv1 : trim2sample (1/5) (5/2) = ((400 : ℤ) : ℚ) / 1000 := by
    apply trim2sample_eval (c := 1)
    · rw [Int.ceil_eq_iff] ; norm_num
    · norm_num
    · rw [Int.floor_eq_iff] ; norm_num
  have hv2 : trim2sample (1/5) ((2 : ℤ) : ℚ) = ((500 : ℤ) : ℚ) / 1000 := by
    apply trim2sample_eval (c := 1)
    · rw [Int.ceil_eq_iff] ; push_cast ; norm_num
    · push_cast ; norm_num
    · rw [Int.floor_eq_iff] ; push_cast ; norm_num
  refine ⟨?_, ?_, ?_, ?_⟩
  · intro t
    unfold time2sample
    rw [pytrunc_intCast]
  · intro h
    exact hfrac ⟨pytrunc r, h⟩
  · rw [htr, hv1, hv2]
    norm_num
  · rw [htr, hv1]
    rintro ⟨n, hn⟩
    have : (5 : ℚ) * n = 4 := by push_cast at hn ⊢ ; linarith
    have : (5 : ℤ) * n = 4 := by exact_mod_cast this
    omega

/-- C10 witness. -/
theorem time2sample_truncates_rate_witness :
    (¬ ∃ n : ℤ, (n : ℚ) = 5/2) ∧
      ((∀ t : ℚ, time2sample t (5/2) = time2sample t (pytrunc (5/2) : ℚ))
        ∧ (pytrunc (5/2 : ℚ) : ℚ) ≠ 5/2
        ∧ trim2sample (1/5) (5/2) ≠ trim2sample (1/5) (pytrunc (5/2) : ℚ)
        ∧ ¬ ∃ n : ℤ, trim2sample (1/5) (5/2) * (pytrunc (5/2) : ℚ) = (n : ℚ)) :=
  ⟨by
    rintro ⟨n, hn⟩
    have : (2 : ℚ) * n = 5 := by rw [hn] ; ring
    have : (2 : ℤ) * n = 5 := by exact_mod_cast this
    omega,
   time2sample_truncates_rate_trim2sample_not (5/2) (by
    rintro ⟨n, hn⟩
    have : (2 : ℚ) * n = 5 := by rw [hn] ; ring
    have : (2 : ℤ) * n = 5 := by exact_mod_cast this
    omega)⟩

/-- The centered coordinate at the integer-floor center index is zero for
an odd extent. -/
theorem coord_center_odd {n : ℕ} (h : Odd n) : coord n (center n) = 0 := by
  obtain ⟨m, rfl⟩ := h
  have hc : center (2 * m + 1) = m := by
    unfold center
    omega
  rw [hc]
  unfold coord
  push_cast
  ring

/-- C4 counterexample: with an even extent the coordinate at the
integer-floor center index is `-1/2`, not `0`, so the kernel value there is
`exp(-1/8) ≠ 1`: `gaussian_3d(2, 1, 1, 1)` at index `(0, 0, 0)` (the
integer-floor of each half-extent) is strictly below `1`. -/
theorem gaussian_3d_center_even_ne_one :
    gaussian_3d 2 1 1 (SigmaArg.scalar 1) (center 2) (center 1) (center 1) ≠ 1 := by
  unfold gaussian_3d
  have hb : broadcastSigma (SigmaArg.scalar 1) = (1, 1, 1) := rfl
  rw [hb]
  have he : g3exp 2 1 1 (1, 1, 1).1 (1, 1, 1).2.1 (1, 1, 1).2.2
      (center 2) (center 1) (center 1) = -(1/8) := by
    unfold g3exp coord center
    norm_num
  rw [he]
  apply ne_of_lt
  apply Real.exp_lt_one_iff.mpr
  push_cast
  norm_num

/-- C4 (amended): for odd extents `nx, ny, nz` and positive sigma (scalar
or 3-element), the value of `gaussian_3d` at the integer-floor center
index of each axis is exactly `1`. -/
theorem gaussian_3d_center_one (nx ny nz : ℕ) (sgm : SigmaArg)
    (hx : Odd nx) (hy : Odd ny) (hz : Odd nz)
    (h1 : 0 < (broadcastSigma sgm).1) (h2 : 0 < (broadcastSigma sgm).2.1)
    (h3 : 0 < (broadcastSigma sgm).2.2) :
    gaussian_3d nx ny nz sgm (center nx) (center ny) (center nz) = 1 := by
  unfold gaussian_3d
  have he : g3exp nx ny nz (broadcastSigma sgm).1 (broadcastSigma sgm).2.1
      (broadcastSigma sgm).2.2 (center nx) (center ny) (center nz) = 0 := by
    unfold g3exp
    rw [coord_center_odd hx, coord_center_odd hy, coord_center_odd hz]
    norm_num
  rw [he]
  push_cast
  exact Real.exp_zero

/-- C4 witness. -/
theorem gaussian_3d_center_one_witness :
    Odd 3 ∧ (0 : ℚ) < (broadcastSigma (SigmaArg.scalar 1)).1 ∧
      gaussian_3d 3 3 3 (SigmaArg.scalar 1) (center 3) (center 3) (center 3) = 1 :=
  ⟨by decide, by norm_num [broadcastSigma],
    gaussian_3d_center_one 3 3 3 (SigmaArg.scalar 1) (by decide) (by decide)
      (by decide) (by norm_num [broadcastSigma]) (by norm_num [broadcastSigma])
      (by norm_num [broadcastSigma])⟩

/-- C5: separability. For positive per-axis sigmas, `gaussian_3d` with the
3-element sigma `(sx, sy, sz)` equals, at every grid index, the product of
the three 1-D profiles `gaussian_1d(coord, 1, 0, s_axis)` evaluated on the
centered coordinate of each axis. -/
theorem gaussian_3d_separable (nx ny nz : ℕ) (sx sy sz : ℚ) (i j k : ℕ)
    (h1 : 0 < sx) (h2 : 0 < sy) (h3 : 0 < sz) :
    gaussian_3d nx ny nz (SigmaArg.triple sx sy sz) i j k =
      gaussian_1d (coord nx i) 1 0 sx * gaussian_1d (coord ny j) 1 0 sy *
        gaussian_1d (coord nz k) 1 0 sz := by
  unfold gaussian_3d gaussian_1d
  have hb : broadcastSigma (SigmaArg.triple sx sy sz) = (sx, sy, sz) := rfl
  rw [hb]
  have he : g3exp nx ny nz (sx, sy, sz).1 (sx, sy, sz).2.1 (sx, sy, sz).2.2 i j k =
      g1exp (coord nx i) 0 sx + g1exp (coord ny j) 0 sy + g1exp (coord nz k) 0 sz := by
    unfold g3exp g1exp
    ring
  rw [he]
  push_cast
  rw [Real.exp_add, Real.exp_add]
  ring

/-- C5 witness. -/
theorem gaussian_3d_separable_witness :
    (0 : ℚ) < 1 ∧
      gaussian_3d 3 3 3 (SigmaArg.triple 1 1 1) 0 0 0 =
        gaussian_1d (coord 3 0) 1 0 1 * gaussian_1d (coord 3 0) 1 0 1 *
          gaussian_1d (coord 3 0) 1 0 1 :=
  ⟨by norm_num,
    gaussian_3d_separable 3 3 3 1 1 1 0 0 0 (by norm_num) (by norm_num) (by norm_num)⟩

/-- C8: with every (broadcast) sigma component nonzero, each value of
`gaussian_3d` lies in the half-open interval `(0, 1]`: the exponent is
nonpositive, so the value is strictly positive and never exceeds `1`. -/
theorem gaussian_3d_mem_Ioc (nx ny nz : ℕ) (sgm : SigmaArg) (i j k : ℕ)
    (h1 : (broadcastSigma sgm).1 ≠ 0) (h2 : (broadcastSigma sgm).2.1 ≠ 0)
    (h3 : (broadcastSigma sgm).2.2 ≠ 0) :
    0 < gaussian_3d nx ny nz sgm i j k ∧ gaussian_3d nx ny nz sgm i j k ≤ 1 := by
  refine ⟨Real.exp_pos _, ?_⟩
  apply Real.exp_le_one_iff.mpr
  have hle : g3exp nx ny nz (broadcastSigma sgm).1 (broadcastSigma sgm).2.1
      (broadcastSigma sgm).2.2 i j k ≤ 0 := by
    have d1 : (0 : ℚ) ≤ 2 * (broadcastSigma sgm).1 * (broadcastSigma sgm).1 := by
      nlinarith [mul_self_nonneg ((broadcastSigma sgm).1)]
    have d2 : (0 : ℚ) ≤ 2 * (broadcastSigma sgm).2.1 * (broadcastSigma sgm).2.1 := by
      nlinarith [mul_self_nonneg ((broadcastSigma sgm).2.1)]
    have d3 : (0 : ℚ) ≤ 2 * (broadcastSigma sgm).2.2 * (broadcastSigma sgm).2.2 := by
      nlinarith [mul_self_nonneg ((broadcastSigma sgm).2.2)]
    have t1 : (0 : ℚ) ≤ coord nx i * coord nx i /
        (2 * (broadcastSigma sgm).1 * (broadcastSigma sgm).1) :=
      div_nonneg (mul_self_nonneg _) d1
    have t2 : (0 : ℚ) ≤ coord ny j * coord ny j /
        (2 * (broadcastSigma sgm).2.1 * (broadcastSigma sgm).2.1) :=
      div_nonneg (mul_self_nonneg _) d2
    have t3 : (0 : ℚ) ≤ coord nz k * coord nz k /
        (2 * (broadcastSigma sgm).2.2 * (broadcastSigma sgm).2.2) :=
      div_nonneg (mul_self_nonneg _) d3
    unfold g3exp
    rw [neg_div]
    linarith
  exact_mod_cast hle

/-- C8 witness. -/
theorem gaussian_3d_mem_Ioc_witness :
    (broadcastSigma (SigmaArg.scalar 1)).1 ≠ 0 ∧
      (0 < gaussian_3d 2 2 2 (SigmaArg.scalar 1) 0 0 0 ∧
        gaussian_3d 2 2 2 (SigmaArg.scalar 1) 0 0 0 ≤ 1) :=
  ⟨by norm_num [broadcastSigma],
    gaussian_3d_mem_Ioc 2 2 2 (SigmaArg.scalar 1) 0 0 0
      (by norm_num [broadcastSigma]) (by norm_num [broadcastSigma])
      (by norm_num [broadcastSigma])⟩

set_option maxRecDepth 8000 in
/-- The channel-name message is the class name, `": "`, and the body with
the trace appended. -/
theorem channelNameMsg_split (trace : String) :
    channelNameMsg trace = "ChannelNameException: " ++
      ("Channel name header does not conform to\nthe IRIS SEED standard - 3 characters; ending in \x27Z\x27 for\nvertical and ending either \x27E\x27 & \x27N\x27 or \x271\x27 & \x272\x27 for\nhorizontal components.\n    Working on trace: " ++ trace) := by
  unfold channelNameMsg
  rw [← String.append_assoc]
  rw [show "ChannelNameException: " ++ "Channel name header does not conform to\nthe IRIS SEED standard - 3 characters; ending in \x27Z\x27 for\nvertical and ending either \x27E\x27 & \x27N\x27 or \x271\x27 & \x272\x27 for\nhorizontal components.\n    Working on trace: " = "ChannelNameException: Channel name header does not conform to\nthe IRIS SEED standard - 3 characters; ending in \x27Z\x27 for\nvertical and ending either \x27E\x27 & \x27N\x27 or \x271\x27 & \x272\x27 for\nhorizontal components.\n    Working on trace: " from by decide]

set_option maxRecDepth 8000 in
/-- The bad-upfactor message is the class name, `": "`, and the body with
the trace appended. -/
theorem badUpfactorMsg_split (trace : String) :
    badUpfactorMsg trace = "BadUpfactorException: " ++
      ("chosen upfactor cannot be decimated to\ntarget sampling rate.\n    Working on trace: " ++ trace) := by
  unfold badUpfactorMsg
  rw [← String.append_assoc]
  rw [show "BadUpfactorException: " ++ "chosen upfactor cannot be decimated to\ntarget sampling rate.\n    Working on trace: " = "BadUpfactorException: chosen upfactor cannot be decimated to\ntarget sampling rate.\n    Working on trace: " from by decide]

set_option maxRecDepth 8000 in
/-- C6 counterexample: the primary message of `DataGapException` is not
verbatim the text the claim gives: the code prefixes the class name,
indents the `OR:` line with four spaces rather than one, and runs
`"the"` and `"selected"` together (`"theselected"`). -/
theorem dataGap_primary_ne_claimed : dataGapMsg ≠ dataGapClaimedPrimary := by
  decide

set_option maxRecDepth 8000 in
/-- C6 (amended): the primary message of `DataGapException` is exactly
`"DataGapException: All available data had gaps for this timestep.\n    OR:
no data present in the archive for theselected stations."`, and the
secondary log message begins with tab indentation followed by
`"All available data for this time period contains gaps"`. -/
theorem dataGap_messages :
    dataGapMsg = "DataGapException: " ++
      "All available data had gaps for this timestep.\n    OR: no data present in the archive for theselected stations."
    ∧ dataGapSecondary = "\t\t" ++
      ("All available data for this time period contains gaps" ++
        "\n\t\tor data not available at start/end of time period") := by
  exact ⟨by decide, by decide⟩

set_option maxRecDepth 8000 in
/-- C9: every exception class builds its primary message as its own class
name followed by `": "` and the human-readable body, so no primary message
equals the bare table text of the spec message contract. -/
theorem exception_messages_have_class_name :
    stationFileHeaderMsg = "StationFileHeaderException: " ++
      "incorrect station file header - use:\nLatitude, Longitude, Elevation, Name"
    ∧ velocityModelFileHeaderMsg = "VelocityModelFileHeaderException: " ++
      "incorrect velocity model file header - use:\nDepth, Vp, Vs"
    ∧ archiveEmptyMsg = "ArchiveEmptyException: " ++
      "No data was available for this timestep."
    ∧ noScanMseedDataMsg = "NoScanMseedDataException: " ++
      "No .scanmseed data found."
    ∧ noStationAvailabilityDataMsg = "NoStationAvailabilityDataException: " ++
      "No .StationAvailability files found."
    ∧ dataGapMsg = "DataGapException: " ++
      "All available data had gaps for this timestep.\n    OR: no data present in the archive for theselected stations."
    ∧ (∀ trace : String, channelNameMsg trace = "ChannelNameException: " ++
        ("Channel name header does not conform to\nthe IRIS SEED standard - 3 characters; ending in \x27Z\x27 for\nvertical and ending either \x27E\x27 & \x27N\x27 or \x271\x27 & \x272\x27 for\nhorizontal components.\n    Working on trace: " ++ trace))
    ∧ (∀ trace : String, badUpfactorMsg trace = "BadUpfactorException: " ++
        ("chosen upfactor cannot be decimated to\ntarget sampling rate.\n    Working on trace: " ++ trace))
    ∧ onsetTypeErrorMsg = "OnsetTypeError: " ++
      "The Onset object you have created does not inherit from the required base class - see manual."
    ∧ pickerTypeErrorMsg = "PickerTypeError: " ++
      "The PhasePicker object you have created doesnot inherit from the required base class - see manual."
    ∧ timeSpanMsg = "TimeSpanException: " ++
      "The start time specified is after the end time."
    ∧ invalidThresholdMethodMsg = "InvalidThresholdMethodException: " ++
      "Only \x27static\x27 or \x27dynamic\x27 thresholds are supported."
    ∧ stationFileHeaderMsg ≠
      "incorrect station file header - use:\nLatitude, Longitude, Elevation, Name"
    ∧ velocityModelFileHeaderMsg ≠
      "incorrect velocity model file header - use:\nDepth, Vp, Vs"
    ∧ archiveEmptyMsg ≠ "No data was available for this timestep."
    ∧ noScanMseedDataMsg ≠ "No .scanmseed data found."
    ∧ noStationAvailabilityDataMsg ≠ "No .StationAvailability files found."
    ∧ dataGapMsg ≠ dataGapClaimedPrimary :=
  ⟨by decide, by decide, by decide, by decide, by decide, by decide,
    channelNameMsg_split, badUpfactorMsg_split,
    by decide, by decide, by decide, by decide,
    by decide, by decide, by decide, by decide, by decide, by decide⟩

end QMUtil
